import Mathlib

/-!
Verification of an RSA demonstration program (src/main.py).

The three source functions get_primes, are_relatively_prime and
make_key_pair are embedded as executable Lean functions over natural
numbers (the program only ever applies them to non-negative integers).
The call random.choice(lst) is modelled by an explicit chooser oracle
ch : Nat → Nat; the element picked at the i-th choice point is
lst[ch i % len(lst)], so quantifying over all oracles covers every
possible outcome of the random draws.  The two failure conditions
(ValueError for a too small length, AssertionError for an exhausted
search) become the two constructors of KeyGenError.
-/

/-- One step of the trial division sieve in get_primes: the inner for loop
of the source appends the candidate n to the accumulated list of primes
exactly when no previously found prime divides it. -/
def sieveStep (primes : List Nat) (n : Nat) : List Nat :=
  if primes.any (fun p => n % p == 0) then primes else primes ++ [n]

/-- Embedding of get_primes(start, stop): if start >= stop the result is
empty; otherwise primes are accumulated over the odd candidates
range(3, stop + 1, 2) starting from the seed list [2], and finally the
entries below start are removed from the front of the list. -/
def get_primes (start stop : Nat) : List Nat :=
  if start ≥ stop then []
  else
    ((List.range' 3 ((stop - 1) / 2) 2).foldl sieveStep [2]).dropWhile
      (fun p => decide (p < start))

/-- Embedding of are_relatively_prime(a, b): scan n over range(2, min(a, b) + 1)
and report False when the chained comparison a % n == b % n == 0 holds for
some candidate n, True when the scan completes. -/
def are_relatively_prime (a b : Nat) : Bool :=
  (List.range' 2 (min a b + 1 - 2)).all
    (fun n => !((a % n == b % n) && (b % n == 0)))

/-- The two failure conditions of make_key_pair: invalidParameter models the
ValueError raised for length < 4, generationExhausted models the
AssertionError raised when one of the three searches finds no candidate. -/
inductive KeyGenError where
  | invalidParameter : KeyGenError
  | generationExhausted : KeyGenError
deriving DecidableEq

/-- Public key record (n, e), as the namedtuple PublicKey of the source. -/
structure PublicKey where
  n : Nat
  e : Nat
deriving DecidableEq

/-- Private key record (n, d), as the namedtuple PrivateKey of the source. -/
structure PrivateKey where
  n : Nat
  d : Nat
deriving DecidableEq

/-- Embedding of PublicKey.encrypt: pow(x, e, n) on Python integers, which is
x ^ e reduced modulo n with a result in [0, n) for positive n. -/
def PublicKey.encrypt (k : PublicKey) (x : Int) : Int :=
  x ^ k.e % (k.n : Int)

/-- Embedding of PrivateKey.decrypt: pow(x, d, n) on Python integers. -/
def PrivateKey.decrypt (k : PrivateKey) (x : Int) : Int :=
  x ^ k.d % (k.n : Int)

/-- Model of random.choice(l) for nonempty l: the oracle value k selects the
element at index k % len(l). -/
def choose (k : Nat) (l : List Nat) : Nat :=
  (l[k % l.length]?).getD 0

/-- The p and q selection loop of make_key_pair: repeatedly pick a prime p at
random, remove it from the pool, and look for a partner q among the
remaining primes with n_min <= p * q <= n_max; when the pool runs out the
loop falls through to the AssertionError (modelled by none).  The loop
removes one element of the pool per iteration, so with fuel initialised to
the pool length the fuel never runs out before the pool does. -/
def pickPQ (ch : Nat → Nat) (nmin nmax : Nat) :
    Nat → Nat → List Nat → Option (Nat × Nat)
  | _, _, [] => none
  | _, 0, _ :: _ => none
  | idx, fuel + 1, p0 :: rest =>
    let p := choose (ch idx) (p0 :: rest)
    let remaining := (p0 :: rest).erase p
    let q_candidates := remaining.filter
      (fun q => decide (nmin ≤ p * q) && decide (p * q ≤ nmax))
    if q_candidates.isEmpty then pickPQ ch nmin nmax (idx + 2) fuel remaining
    else some (p, choose (ch (idx + 1)) q_candidates)

/-- Embedding of make_key_pair(length).  The chooser oracle ch stands for the
random module: choice point i reads ch i.  The searches for the exponents
e and d scan the odd candidates range(3, stop, 2) for stop = (p-1)*(q-1),
exactly as the source does. -/
def make_key_pair (length : Nat) (ch : Nat → Nat) :
    Except KeyGenError (PublicKey × PrivateKey) :=
  if length < 4 then .error .invalidParameter
  else
    match pickPQ ch (1 <<< (length - 1)) ((1 <<< length) - 1) 0
        (get_primes (1 <<< (length / 2 - 1)) (1 <<< (length / 2 + 1))).length
        (get_primes (1 <<< (length / 2 - 1)) (1 <<< (length / 2 + 1))) with
    | none => .error .generationExhausted
    | some (p, q) =>
      match (List.range' 3 (((p - 1) * (q - 1) - 2) / 2) 2).find?
          (fun e => are_relatively_prime e ((p - 1) * (q - 1))) with
      | none => .error .generationExhausted
      | some e =>
        match (List.range' 3 (((p - 1) * (q - 1) - 2) / 2) 2).find?
            (fun d => d * e % ((p - 1) * (q - 1)) == 1) with
        | none => .error .generationExhausted
        | some d => .ok (⟨p * q, e⟩, ⟨p * q, d⟩)

/-- Binary modular exponentiation with explicit fuel, used to evaluate the
large decryption exponent of the known test vectors; powModFuel_eq below
proves it computes x ^ e % n. -/
def powModFuel : Nat → Nat → Nat → Nat → Nat
  | 0, _, _, n => 1 % n
  | fuel + 1, x, e, n =>
    if e = 0 then 1 % n
    else if e % 2 = 1 then x % n * powModFuel fuel (x * x % n) (e / 2) n % n
    else powModFuel fuel (x * x % n) (e / 2) n

/-- Specification list for the sieve: all primes up to and including m, in
ascending order. -/
def primesLE (m : Nat) : List Nat :=
  (List.range (m + 1)).filter (fun n => decide (Nat.Prime n))

/-! ### Correctness of the binary modular exponentiation helper -/

theorem powModFuel_eq : ∀ (fuel x e n : Nat), e < 2 ^ fuel →
    powModFuel fuel x e n = x ^ e % n := by
  intro fuel
  induction fuel with
  | zero =>
    intro x e n h
    have he : e = 0 := by simpa using h
    subst he
    simp [powModFuel]
  | succ f ih =>
    intro x e n h
    rw [powModFuel]
    by_cases he : e = 0
    · subst he; simp
    · rw [if_neg he]
      have hlt : e / 2 < 2 ^ f := by
        rw [pow_succ] at h
        omega
      have hrec : powModFuel f (x * x % n) (e / 2) n = (x * x % n) ^ (e / 2) % n :=
        ih _ _ _ hlt
      have hx2 : (x * x % n) ^ (e / 2) % n = x ^ (2 * (e / 2)) % n := by
        rw [← Nat.pow_mod, ← pow_two, ← pow_mul]
      by_cases ho : e % 2 = 1
      · rw [if_pos ho, hrec, hx2]
        have hsplit : e = 2 * (e / 2) + 1 := by omega
        conv_rhs => rw [hsplit, pow_succ]
        rw [Nat.mul_mod (x ^ (2 * (e / 2))) x n,
          Nat.mul_comm (x ^ (2 * (e / 2)) % n) (x % n)]
      · rw [if_neg ho, hrec, hx2]
        have hsplit : 2 * (e / 2) = e := by omega
        rw [hsplit]

/-! ### Characterization of the prime sieve -/

theorem mem_primesLE {m r : Nat} : r ∈ primesLE m ↔ r.Prime ∧ r ≤ m := by
  simp [primesLE, List.mem_filter, List.mem_range, Nat.lt_succ_iff, and_comm]

theorem primesLE_sorted (m : Nat) : (primesLE m).Pairwise (· < ·) :=
  (List.pairwise_lt_range (m + 1)).filter _

theorem primesLE_succ (m : Nat) :
    primesLE (m + 1) = primesLE m ++ (if Nat.Prime (m + 1) then [m + 1] else []) := by
  unfold primesLE
  rw [List.range_succ, List.filter_append]
  by_cases h : Nat.Prime (m + 1) <;> simp [h, List.filter]

theorem not_prime_succ_of_odd {a : Nat} (h3 : 3 ≤ a) (hodd : a % 2 = 1) :
    ¬ Nat.Prime (a + 1) := by
  intro hp
  have hdvd : 2 ∣ a + 1 := by omega
  rcases (Nat.Prime.eq_one_or_self_of_dvd hp 2 hdvd) with h | h <;> omega

theorem sieveStep_primesLE {a : Nat} (h3 : 3 ≤ a) (hodd : a % 2 = 1) :
    sieveStep (primesLE (a - 1)) a = primesLE (a + 1) := by
  have ha1 : a - 1 + 1 = a := by omega
  have hsucc := primesLE_succ (a - 1)
  rw [ha1] at hsucc
  have hsucc2 := primesLE_succ a
  rw [if_neg (not_prime_succ_of_odd h3 hodd)] at hsucc2
  rw [List.append_nil] at hsucc2
  have hcond : (primesLE (a - 1)).any (fun p => a % p == 0) = true ↔ ¬ a.Prime := by
    rw [List.any_eq_true]
    constructor
    · rintro ⟨p, hmem, hpdvd⟩ hap
      rw [beq_iff_eq] at hpdvd
      obtain ⟨hpprime, hple⟩ := mem_primesLE.mp hmem
      rcases Nat.Prime.eq_one_or_self_of_dvd hap p (Nat.dvd_of_mod_eq_zero hpdvd)
        with h | h
      · exact absurd h (Nat.Prime.one_lt hpprime).ne'
      · omega
    · intro hap
      refine ⟨Nat.minFac a, ?_, ?_⟩
      · have hne1 : a ≠ 1 := by omega
        have hprime := Nat.minFac_prime hne1
        have hdvd := Nat.minFac_dvd a
        have hle : Nat.minFac a ≤ a := Nat.le_of_dvd (by omega) hdvd
        have hne : Nat.minFac a ≠ a := by
          intro he
          exact hap (he ▸ hprime)
        exact mem_primesLE.mpr ⟨hprime, by omega⟩
      · rw [beq_iff_eq]
        exact Nat.mod_eq_zero_of_dvd (Nat.minFac_dvd a)
  by_cases hap : a.Prime
  · rw [sieveStep, if_neg (by simp only [hcond]; exact fun h => h hap)]
    rw [hsucc2, hsucc, if_pos hap]
  · rw [sieveStep, if_pos (hcond.mpr hap)]
    rw [hsucc2, hsucc, if_neg hap, List.append_nil]

theorem sieve_fold : ∀ (k a : Nat), 3 ≤ a → a % 2 = 1 →
    List.foldl sieveStep (primesLE (a - 1)) (List.range' a k 2) =
      primesLE (a - 1 + 2 * k) := by
  intro k
  induction k with
  | zero => intro a _ _; simp
  | succ j ih =>
    intro a h3 hodd
    rw [List.range'_succ, List.foldl_cons, sieveStep_primesLE h3 hodd]
    have h1 : a + 1 = a + 2 - 1 := by omega
    rw [h1, ih (a + 2) (by omega) (by omega)]
    congr 1
    omega

theorem primesLE_two : primesLE 2 = [2] := by
  have hp0 : ¬ Nat.Prime 0 := by norm_num
  have hp1 : ¬ Nat.Prime 1 := by norm_num
  have hp2 : Nat.Prime 2 := by norm_num
  simp [primesLE, List.range_succ, List.filter_append, List.filter,
    hp0, hp1, hp2]

theorem dropWhile_lt_eq_filter (s : Nat) : ∀ l : List Nat, l.Pairwise (· < ·) →
    l.dropWhile (fun p => decide (p < s)) = l.filter (fun p => decide (s ≤ p)) := by
  intro l
  induction l with
  | nil => simp
  | cons a t ih =>
    intro hp
    rw [List.pairwise_cons] at hp
    rw [List.dropWhile_cons, List.filter_cons]
    by_cases h : a < s
    · rw [if_pos (by simpa using h), if_neg (by simpa using h), ih hp.2]
    · rw [if_neg (by simpa using h), if_pos (by simpa using Nat.le_of_not_lt h)]
      congr 1
      rw [eq_comm, List.filter_eq_self]
      intro b hb
      have := hp.1 b hb
      simp only [decide_eq_true_eq]
      omega

theorem get_primes_eq {start stop : Nat} (h : start < stop) :
    get_primes start stop =
      (primesLE (2 + 2 * ((stop - 1) / 2))).filter (fun p => decide (start ≤ p)) := by
  unfold get_primes
  rw [if_neg (by omega)]
  have hfold := sieve_fold ((stop - 1) / 2) 3 (by omega) (by omega)
  have h32 : (3 : Nat) - 1 = 2 := rfl
  rw [h32, primesLE_two] at hfold
  rw [hfold, dropWhile_lt_eq_filter _ _ (primesLE_sorted _)]

theorem get_primes_sorted (start stop : Nat) :
    (get_primes start stop).Pairwise (· < ·) := by
  by_cases h : start < stop
  · rw [get_primes_eq h]
    exact (primesLE_sorted _).filter _
  · unfold get_primes
    rw [if_pos (by omega)]
    exact List.Pairwise.nil

theorem mem_get_primes {start stop r : Nat} (h2 : 2 ≤ stop) (h : start < stop) :
    r ∈ get_primes start stop ↔ r.Prime ∧ start ≤ r ∧ r ≤ stop := by
  rw [get_primes_eq h, List.mem_filter, mem_primesLE]
  have hM : ∀ rr : Nat, rr.Prime → (rr ≤ 2 + 2 * ((stop - 1) / 2) ↔ rr ≤ stop) := by
    intro rr hrr
    rcases (show 2 + 2 * ((stop - 1) / 2) = stop ∨
        (2 + 2 * ((stop - 1) / 2) = stop + 1 ∧ stop % 2 = 1) by omega) with hM | ⟨hM, hst⟩
    · rw [hM]
    · rw [hM]
      constructor
      · intro hle
        rcases Nat.lt_or_ge rr (stop + 1) with hlt | hge
        · omega
        · have heq : rr = stop + 1 := by omega
          have heven : 2 ∣ rr := by omega
          have := (Nat.Prime.eq_one_or_self_of_dvd hrr 2 heven)
          omega
      · intro hle; omega
  constructor
  · rintro ⟨⟨hpr, hle⟩, hst⟩
    exact ⟨hpr, by simpa using hst, (hM r hpr).mp hle⟩
  · rintro ⟨hpr, hst, hle⟩
    exact ⟨⟨hpr, (hM r hpr).mpr hle⟩, by simpa using hst⟩

/-! ### Characterization of the coprimality scan -/

theorem are_relatively_prime_false_iff (a b : Nat) :
    are_relatively_prime a b = false ↔
      ∃ n, 2 ≤ n ∧ n ≤ min a b ∧ n ∣ a ∧ n ∣ b := by
  unfold are_relatively_prime
  rw [← Bool.not_eq_true, List.all_eq_true]
  constructor
  · intro h
    push_neg at h
    obtain ⟨n, hn, hcond⟩ := h
    rw [List.mem_range'_1] at hn
    have hc : ((a % n == b % n) && (b % n == 0)) = true := by
      rcases Bool.eq_false_or_eq_true ((a % n == b % n) && (b % n == 0)) with hB | hB
      · exact hB
      · exact absurd (by rw [hB]; rfl) hcond
    rw [Bool.and_eq_true, beq_iff_eq, beq_iff_eq] at hc
    exact ⟨n, by omega, by omega, Nat.dvd_of_mod_eq_zero (by omega),
      Nat.dvd_of_mod_eq_zero hc.2⟩
  · rintro ⟨n, h2, hmin, hda, hdb⟩ hall
    have hmem : n ∈ List.range' 2 (min a b + 1 - 2) := by
      rw [List.mem_range'_1]
      omega
    have hval := hall n hmem
    have ha0 : a % n = 0 := Nat.mod_eq_zero_of_dvd hda
    have hb0 : b % n = 0 := Nat.mod_eq_zero_of_dvd hdb
    rw [ha0, hb0] at hval
    simp at hval

theorem are_relatively_prime_true_iff_gcd (a b : Nat) (ha : 0 < a) (hb : 0 < b) :
    are_relatively_prime a b = true ↔ Nat.gcd a b = 1 := by
  constructor
  · intro htrue
    by_contra hg
    have hgpos : 0 < Nat.gcd a b := Nat.gcd_pos_of_pos_left b ha
    have h2 : 2 ≤ Nat.gcd a b := by omega
    have hfalse : are_relatively_prime a b = false := by
      refine (are_relatively_prime_false_iff a b).mpr
        ⟨Nat.gcd a b, h2, ?_, Nat.gcd_dvd_left a b, Nat.gcd_dvd_right a b⟩
      exact le_min (Nat.le_of_dvd ha (Nat.gcd_dvd_left a b))
        (Nat.le_of_dvd hb (Nat.gcd_dvd_right a b))
    rw [htrue] at hfalse
    exact Bool.noConfusion hfalse
  · intro hgcd
    by_contra htrue
    rw [Bool.not_eq_true] at htrue
    obtain ⟨n, h2, _, hda, hdb⟩ := (are_relatively_prime_false_iff a b).mp htrue
    have : n ∣ Nat.gcd a b := Nat.dvd_gcd hda hdb
    rw [hgcd] at this
    have := Nat.le_of_dvd one_pos this
    omega

theorem are_relatively_prime_of_min_le_one {a b : Nat} (h : min a b ≤ 1) :
    are_relatively_prime a b = true := by
  unfold are_relatively_prime
  have hlen : min a b + 1 - 2 = 0 := by omega
  rw [hlen]
  rfl

/-! ### Properties of the random selection loop -/

theorem choose_mem {k : Nat} {l : List Nat} (h : l ≠ []) : choose k l ∈ l := by
  unfold choose
  have hlen : k % l.length < l.length :=
    Nat.mod_lt _ (List.length_pos.mpr h)
  rw [List.getElem?_eq_getElem hlen]
  exact List.getElem_mem hlen

theorem pickPQ_spec (ch : Nat → Nat) (nmin nmax : Nat) :
    ∀ (fuel idx : Nat) (primes : List Nat) (p q : Nat), primes.Nodup →
      pickPQ ch nmin nmax idx fuel primes = some (p, q) →
      p ∈ primes ∧ q ∈ primes ∧ p ≠ q ∧ nmin ≤ p * q ∧ p * q ≤ nmax := by
  intro fuel
  induction fuel with
  | zero =>
    intro idx primes p q hnd h
    cases primes with
    | nil => simp [pickPQ] at h
    | cons p0 rest => simp [pickPQ] at h
  | succ f ih =>
    intro idx primes p q hnd h
    cases primes with
    | nil => simp [pickPQ] at h
    | cons p0 rest =>
      rw [pickPQ] at h
      by_cases hqc : (((p0 :: rest).erase (choose (ch idx) (p0 :: rest))).filter
          (fun q => decide (nmin ≤ choose (ch idx) (p0 :: rest) * q) &&
            decide (choose (ch idx) (p0 :: rest) * q ≤ nmax))).isEmpty
      · rw [if_pos hqc] at h
        have hnd2 : ((p0 :: rest).erase (choose (ch idx) (p0 :: rest))).Nodup :=
          hnd.erase _
        obtain ⟨hp, hq, hne, h1, h2⟩ := ih _ _ _ _ hnd2 h
        exact ⟨List.mem_of_mem_erase hp, List.mem_of_mem_erase hq, hne, h1, h2⟩
      · rw [if_neg hqc] at h
        have hne : (((p0 :: rest).erase (choose (ch idx) (p0 :: rest))).filter
            (fun q => decide (nmin ≤ choose (ch idx) (p0 :: rest) * q) &&
              decide (choose (ch idx) (p0 :: rest) * q ≤ nmax))) ≠ [] := by
          intro hnil
          rw [hnil] at hqc
          exact hqc rfl
        have hqmem := choose_mem (k := ch (idx + 1)) hne
        rw [List.mem_filter] at hqmem
        obtain ⟨hqerase, hqcond⟩ := hqmem
        rw [Bool.and_eq_true, decide_eq_true_eq, decide_eq_true_eq] at hqcond
        have hpq := (hnd.mem_erase_iff).mp hqerase
        obtain ⟨hp', hq'⟩ : p = choose (ch idx) (p0 :: rest) ∧
            q = choose (ch (idx + 1)) _ := by
          have := h
          injection this with h2
          injection h2 with ha hb
          exact ⟨ha.symm, hb.symm⟩
        subst hp'
        subst hq'
        exact ⟨choose_mem (by simp), hpq.2, fun he => hpq.1 he.symm,
          hqcond.1, hqcond.2⟩

/-! ### The RSA round trip identity -/

theorem pow_modeq_self_of_prime {p : Nat} (hp : p.Prime) (m x : Nat) :
    x ^ ((p - 1) * m + 1) ≡ x [MOD p] := by
  by_cases hdvd : p ∣ x
  · have h0 : x ≡ 0 [MOD p] := (Nat.modEq_zero_iff_dvd).mpr hdvd
    calc x ^ ((p - 1) * m + 1)
        ≡ 0 ^ ((p - 1) * m + 1) [MOD p] := h0.pow _
      _ = 0 := zero_pow (by omega)
      _ ≡ x [MOD p] := h0.symm
  · have hco : Nat.Coprime x p :=
      ((Nat.Prime.coprime_iff_not_dvd hp).mpr hdvd).symm
    have hf : x ^ (p - 1) ≡ 1 [MOD p] := by
      have ht := Nat.ModEq.pow_totient hco
      rwa [Nat.totient_prime hp] at ht
    calc x ^ ((p - 1) * m + 1)
        = (x ^ (p - 1)) ^ m * x := by rw [← pow_mul, pow_succ]
      _ ≡ 1 ^ m * x [MOD p] := (hf.pow m).mul_right x
      _ = x := by rw [one_pow, one_mul]

theorem rsa_roundtrip {p q e d : Nat} (hp : p.Prime) (hq : q.Prime) (hne : p ≠ q)
    (hed : e * d % ((p - 1) * (q - 1)) = 1) (x : Nat) :
    x ^ (e * d) ≡ x [MOD p * q] := by
  have hsplit : e * d = (p - 1) * (q - 1) * (e * d / ((p - 1) * (q - 1))) + 1 := by
    conv_lhs => rw [← Nat.div_add_mod (e * d) ((p - 1) * (q - 1))]
    rw [hed]
  have hP : x ^ (e * d) ≡ x [MOD p] := by
    have hform : e * d = (p - 1) * ((q - 1) * (e * d / ((p - 1) * (q - 1)))) + 1 := by
      rw [← mul_assoc]
      exact hsplit
    rw [hform]
    exact pow_modeq_self_of_prime hp _ x
  have hQ : x ^ (e * d) ≡ x [MOD q] := by
    have hform : e * d = (q - 1) * ((p - 1) * (e * d / ((p - 1) * (q - 1)))) + 1 := by
      have hc : (q - 1) * ((p - 1) * (e * d / ((p - 1) * (q - 1)))) =
          (p - 1) * (q - 1) * (e * d / ((p - 1) * (q - 1))) := by ring
      rw [hc]
      exact hsplit
    rw [hform]
    exact pow_modeq_self_of_prime hq _ x
  exact (Nat.modEq_and_modEq_iff_modEq_mul
    ((Nat.coprime_primes hp hq).mpr hne)).mp ⟨hP, hQ⟩

/-! ### Integer level facts about modular exponentiation -/

theorem int_pow_emod (x : Int) (k : Nat) (n : Int) :
    x ^ k % n = (x % n) ^ k % n := by
  have hm : (x % n) ≡ x [ZMOD n] := Int.emod_emod_of_dvd x dvd_rfl
  exact (hm.pow k).symm

theorem encrypt_natCast (k : PublicKey) (m : Nat) :
    k.encrypt (m : Int) = ((m ^ k.e % k.n : Nat) : Int) := by
  unfold PublicKey.encrypt
  push_cast
  rfl

theorem decrypt_natCast (k : PrivateKey) (m : Nat) :
    k.decrypt (m : Int) = ((m ^ k.d % k.n : Nat) : Int) := by
  unfold PrivateKey.decrypt
  push_cast
  rfl

theorem int_powmod_range {n : Nat} (hn : 0 < n) (k : Nat) (x : Int) :
    0 ≤ x ^ k % (n : Int) ∧ x ^ k % (n : Int) < n := by
  constructor
  · exact Int.emod_nonneg _ (by exact_mod_cast hn.ne')
  · exact Int.emod_lt_of_pos _ (by exact_mod_cast hn)

theorem int_powmod_zero {n : Nat} {k : Nat} (hk : k ≠ 0) {x : Int}
    (hx : x % (n : Int) = 0) : x ^ k % (n : Int) = 0 := by
  have hdvd : (n : Int) ∣ x := Int.dvd_of_emod_eq_zero hx
  exact Int.emod_eq_zero_of_dvd (dvd_pow hdvd hk)

theorem int_powmod_neg_one {n : Nat} (hn : 0 < n) {k : Nat} (hk : Odd k) {x : Int}
    (hx : x % (n : Int) = (n : Int) - 1) :
    x ^ k % (n : Int) = (n : Int) - 1 := by
  have hn0 : (1 : Int) ≤ (n : Int) := by exact_mod_cast hn
  have hn1 : ((n : Int) - 1) % (n : Int) = (n : Int) - 1 :=
    Int.emod_eq_of_lt (by omega) (by omega)
  have h1 : x ≡ (n : Int) - 1 [ZMOD (n : Int)] := by
    unfold Int.ModEq
    rw [hx, hn1]
  have h2 : ((n : Int) - 1) ≡ -1 [ZMOD (n : Int)] := by
    rw [Int.modEq_iff_dvd]
    exact ⟨-1, by ring⟩
  have h3 : x ^ k ≡ (-1 : Int) ^ k [ZMOD (n : Int)] := (h1.trans h2).pow k
  rw [Odd.neg_one_pow hk] at h3
  have h4 : x ^ k ≡ (n : Int) - 1 [ZMOD (n : Int)] := h3.trans h2.symm
  unfold Int.ModEq at h4
  rw [h4, hn1]

/-! ### Inversion of a successful key generation -/

theorem make_key_pair_ok {L : Nat} {ch : Nat → Nat} {pub : PublicKey}
    {priv : PrivateKey} (h : make_key_pair L ch = .ok (pub, priv)) :
    4 ≤ L ∧ ∃ p q e d, p.Prime ∧ q.Prime ∧ p ≠ q ∧
      2 ^ (L - 1) ≤ p * q ∧ p * q < 2 ^ L ∧
      Odd e ∧ Odd d ∧ e * d % ((p - 1) * (q - 1)) = 1 ∧
      pub = ⟨p * q, e⟩ ∧ priv = ⟨p * q, d⟩ := by
  unfold make_key_pair at h
  by_cases hL : L < 4
  · rw [if_pos hL] at h
    simp at h
  · rw [if_neg hL] at h
    refine ⟨by omega, ?_⟩
    split at h
    · simp at h
    · rename_i p q heqpq
      split at h
      · simp at h
      · rename_i e heqe
        split at h
        · simp at h
        · rename_i d heqd
          rw [Except.ok.injEq, Prod.mk.injEq] at h
          obtain ⟨hpub, hpriv⟩ := h
          have hstartlt : (1 <<< (L / 2 - 1)) < (1 <<< (L / 2 + 1)) := by
            rw [Nat.one_shiftLeft, Nat.one_shiftLeft]
            exact Nat.pow_lt_pow_right (by norm_num) (by omega)
          have hstop2 : 2 ≤ (1 <<< (L / 2 + 1)) := by
            rw [Nat.one_shiftLeft]
            calc (2 : Nat) = 2 ^ 1 := (pow_one 2).symm
              _ ≤ 2 ^ (L / 2 + 1) := Nat.pow_le_pow_right (by norm_num) (by omega)
          have hnodup : (get_primes (1 <<< (L / 2 - 1)) (1 <<< (L / 2 + 1))).Nodup :=
            (get_primes_sorted _ _).imp Nat.ne_of_lt
          obtain ⟨hpmem, hqmem, hpne, hlow, hhigh⟩ :=
            pickPQ_spec ch _ _ _ _ _ _ _ hnodup heqpq
          have hpprime : p.Prime := ((mem_get_primes hstop2 hstartlt).mp hpmem).1
          have hqprime : q.Prime := ((mem_get_primes hstop2 hstartlt).mp hqmem).1
          have hmin : 2 ^ (L - 1) ≤ p * q := by
            rw [Nat.one_shiftLeft] at hlow
            exact hlow
          have hmax : p * q < 2 ^ L := by
            rw [Nat.one_shiftLeft] at hhigh
            have h2L : 0 < 2 ^ L := Nat.two_pow_pos L
            omega
          have heodd : Odd e := by
            have hmem := List.mem_of_find?_eq_some heqe
            rw [List.mem_range'] at hmem
            obtain ⟨i, hi, hei⟩ := hmem
            exact Nat.odd_iff.mpr (by omega)
          have hdodd : Odd d := by
            have hmem := List.mem_of_find?_eq_some heqd
            rw [List.mem_range'] at hmem
            obtain ⟨i, hi, hdi⟩ := hmem
            exact Nat.odd_iff.mpr (by omega)
          have hed : e * d % ((p - 1) * (q - 1)) = 1 := by
            have hfind := List.find?_some heqd
            rw [beq_iff_eq] at hfind
            rw [Nat.mul_comm]
            exact hfind
          exact ⟨p, q, e, d, hpprime, hqprime, hpne, hmin, hmax, heodd, hdodd,
            hed, hpub.symm, hpriv.symm⟩

/-! ### Helper lemmas for evaluating encrypt and decrypt on naturals -/

theorem encrypt_mk_nat_eq (N E m r : Nat) (h : m ^ E % N = r) :
    (PublicKey.mk N E).encrypt (m : Int) = (r : Int) := by
  rw [encrypt_natCast]
  show ((m ^ E % N : Nat) : Int) = (r : Int)
  rw [h]

theorem decrypt_mk_nat_eq (N D m r : Nat) (h : m ^ D % N = r) :
    (PrivateKey.mk N D).decrypt (m : Int) = (r : Int) := by
  rw [decrypt_natCast]
  show ((m ^ D % N : Nat) : Int) = (r : Int)
  rw [h]

/-! ### The claims -/

/-- Claim C1, round trip: for every length L >= 4 and every outcome of the
random choices for which make_key_pair(L) returns a pair (pub, priv) with
modulus n, and for every integer x with 0 <= x < n,
priv.decrypt(pub.encrypt(x)) == x. -/
theorem C1_round_trip (L : Nat) (ch : Nat → Nat) (pub : PublicKey)
    (priv : PrivateKey) (hL : 4 ≤ L)
    (h : make_key_pair L ch = .ok (pub, priv)) :
    ∀ x : Int, 0 ≤ x → x < (pub.n : Int) →
      priv.decrypt (pub.encrypt x) = x := by
  obtain ⟨-, p, q, e, d, hp, hq, hpq, hmin, hmax, -, -, hed, hpub, hpriv⟩ :=
    make_key_pair_ok h
  subst hpub
  subst hpriv
  intro x hx0 hxn
  obtain ⟨m, rfl⟩ : ∃ m : Nat, x = (m : Int) :=
    ⟨x.toNat, (Int.toNat_of_nonneg hx0).symm⟩
  have hmn : m < p * q := by exact_mod_cast hxn
  show ((m : Int) ^ e % ((p * q : Nat) : Int)) ^ d % ((p * q : Nat) : Int) = (m : Int)
  rw [← int_pow_emod ((m : Int) ^ e) d ((p * q : Nat) : Int), ← pow_mul,
    ← Nat.cast_pow, ← Int.natCast_mod]
  have hrt : m ^ (e * d) % (p * q) = m := by
    have h1 : m ^ (e * d) % (p * q) = m % (p * q) := rsa_roundtrip hp hq hpq hed m
    rw [h1, Nat.mod_eq_of_lt hmn]
  exact_mod_cast congrArg (fun t : Nat => (t : Int)) hrt

/-- Claim C1 witness: a concrete run of the generator at length 4 with the
all zero oracle, and a concrete round trip at x = 7. -/
theorem C1_round_trip_witness :
    4 ≤ 4 ∧
    make_key_pair 4 (fun _ => 0) = .ok (⟨10, 3⟩, ⟨10, 3⟩) ∧
    (0 : Int) ≤ 7 ∧ (7 : Int) < ((PublicKey.mk 10 3).n : Int) ∧
    (PrivateKey.mk 10 3).decrypt ((PublicKey.mk 10 3).encrypt 7) = 7 :=
  ⟨le_refl 4, by rfl, by norm_num, by decide,
    C1_round_trip 4 (fun _ => 0) ⟨10, 3⟩ ⟨10, 3⟩ (le_refl 4) (by rfl) 7
      (by norm_num) (by decide)⟩

/-- Claim C2, bit length invariant: for every length L >= 4 and every outcome
of the random choices for which make_key_pair(L) returns a pair, the shared
modulus n = p * q lies in the interval from 2 ^ (L-1) to 2 ^ L - 1, its bit
length (Nat.size) is exactly L, and both keys carry the same n. -/
theorem C2_bit_length (L : Nat) (ch : Nat → Nat) (pub : PublicKey)
    (priv : PrivateKey) (hL : 4 ≤ L)
    (h : make_key_pair L ch = .ok (pub, priv)) :
    pub.n = priv.n ∧ 2 ^ (L - 1) ≤ pub.n ∧ pub.n ≤ 2 ^ L - 1 ∧
      Nat.size pub.n = L := by
  obtain ⟨-, p, q, e, d, hp, hq, hpq, hmin, hmax, -, -, -, hpub, hpriv⟩ :=
    make_key_pair_ok h
  subst hpub
  subst hpriv
  refine ⟨rfl, hmin, ?_, ?_⟩
  · show p * q ≤ 2 ^ L - 1
    have h2L : 0 < 2 ^ L := Nat.two_pow_pos L
    omega
  · show Nat.size (p * q) = L
    have h1 : Nat.size (p * q) ≤ L := Nat.size_le.mpr hmax
    have h2 : L - 1 < Nat.size (p * q) := Nat.lt_size.mpr hmin
    omega

/-- Claim C2 witness: the concrete run at length 4 with the all zero oracle. -/
theorem C2_bit_length_witness :
    4 ≤ 4 ∧
    make_key_pair 4 (fun _ => 0) = .ok (⟨10, 3⟩, ⟨10, 3⟩) ∧
    ((PublicKey.mk 10 3).n = (PrivateKey.mk 10 3).n ∧
      2 ^ (4 - 1) ≤ (PublicKey.mk 10 3).n ∧
      (PublicKey.mk 10 3).n ≤ 2 ^ 4 - 1 ∧
      Nat.size (PublicKey.mk 10 3).n = 4) :=
  ⟨le_refl 4, by rfl,
    C2_bit_length 4 (fun _ => 0) ⟨10, 3⟩ ⟨10, 3⟩ (le_refl 4) (by rfl)⟩

/-- Claim C3, boundary fixed points and result range: for every valid key
pair with modulus n > 0 and odd exponents (as the data model requires),
encrypt and decrypt return values in [0, n-1]; inputs congruent to 0 mod n
map to 0 and inputs congruent to n-1 mod n map to n-1; and inputs at or
above n, or negative, are handled by reduction mod n before exponentiation. -/
theorem C3_boundary (n ee dd : Nat) (x : Int) (hn : 0 < n)
    (he : Odd ee) (hd : Odd dd) :
    (0 ≤ (PublicKey.mk n ee).encrypt x ∧ (PublicKey.mk n ee).encrypt x < (n : Int)) ∧
    (0 ≤ (PrivateKey.mk n dd).decrypt x ∧ (PrivateKey.mk n dd).decrypt x < (n : Int)) ∧
    (x % (n : Int) = 0 →
      (PublicKey.mk n ee).encrypt x = 0 ∧ (PrivateKey.mk n dd).decrypt x = 0) ∧
    (x % (n : Int) = (n : Int) - 1 →
      (PublicKey.mk n ee).encrypt x = (n : Int) - 1 ∧
      (PrivateKey.mk n dd).decrypt x = (n : Int) - 1) ∧
    ((PublicKey.mk n ee).encrypt x = (PublicKey.mk n ee).encrypt (x % (n : Int)) ∧
      (PrivateKey.mk n dd).decrypt x = (PrivateKey.mk n dd).decrypt (x % (n : Int))) := by
  have hee : ee ≠ 0 := by
    rcases he with ⟨j, hj⟩
    omega
  have hdd : dd ≠ 0 := by
    rcases hd with ⟨j, hj⟩
    omega
  refine ⟨⟨?_, ?_⟩, ⟨?_, ?_⟩, fun h0 => ⟨?_, ?_⟩, fun h1 => ⟨?_, ?_⟩, ?_, ?_⟩
  · exact (int_powmod_range hn ee x).1
  · exact (int_powmod_range hn ee x).2
  · exact (int_powmod_range hn dd x).1
  · exact (int_powmod_range hn dd x).2
  · exact int_powmod_zero hee h0
  · exact int_powmod_zero hdd h0
  · exact int_powmod_neg_one hn he h1
  · exact int_powmod_neg_one hn hd h1
  · exact int_pow_emod x ee (n : Int)
  · exact int_pow_emod x dd (n : Int)

/-- Claim C3 witness: the fixed key with n = 10 and odd exponent 3, applied
to the negative input x = -3. -/
theorem C3_boundary_witness :
    (0 : Nat) < 10 ∧ Odd (3 : Nat) ∧
    ((0 ≤ (PublicKey.mk 10 3).encrypt (-3) ∧
        (PublicKey.mk 10 3).encrypt (-3) < ((10 : Nat) : Int)) ∧
      (0 ≤ (PrivateKey.mk 10 3).decrypt (-3) ∧
        (PrivateKey.mk 10 3).decrypt (-3) < ((10 : Nat) : Int)) ∧
      ((-3) % ((10 : Nat) : Int) = 0 →
        (PublicKey.mk 10 3).encrypt (-3) = 0 ∧
        (PrivateKey.mk 10 3).decrypt (-3) = 0) ∧
      ((-3) % ((10 : Nat) : Int) = ((10 : Nat) : Int) - 1 →
        (PublicKey.mk 10 3).encrypt (-3) = ((10 : Nat) : Int) - 1 ∧
        (PrivateKey.mk 10 3).decrypt (-3) = ((10 : Nat) : Int) - 1) ∧
      ((PublicKey.mk 10 3).encrypt (-3) =
          (PublicKey.mk 10 3).encrypt ((-3) % ((10 : Nat) : Int)) ∧
        (PrivateKey.mk 10 3).decrypt (-3) =
          (PrivateKey.mk 10 3).decrypt ((-3) % ((10 : Nat) : Int)))) :=
  ⟨by norm_num, Nat.odd_iff.mpr rfl,
    C3_boundary 10 3 3 (-3) (by norm_num) (Nat.odd_iff.mpr rfl)
      (Nat.odd_iff.mpr rfl)⟩

/-- Auxiliary square step for evaluating a modular power along the binary
expansion of the exponent. -/
theorem pow_mod_step0 (x n a a2 c c2 : Nat) (ha : a2 = 2 * a)
    (h : x ^ a % n = c) (hc : c * c % n = c2) : x ^ a2 % n = c2 := by
  subst ha
  rw [two_mul, pow_add, Nat.mul_mod, h, hc]

/-- Auxiliary square and multiply step for evaluating a modular power along
the binary expansion of the exponent. -/
theorem pow_mod_step1 (x n a a2 c c2 : Nat) (ha : a2 = 2 * a + 1)
    (h : x ^ a % n = c) (hc : (c * c % n) * (x % n) % n = c2) :
    x ^ a2 % n = c2 := by
  subst ha
  have hsq : x ^ (2 * a) % n = c * c % n := by
    rw [two_mul, pow_add, Nat.mul_mod, h]
  rw [pow_succ, Nat.mul_mod, hsq, hc]

/-- Claim C4, known vectors: with the fixed key pair n = 2534665157, e = 7,
d = 1810402843, the three encrypt and three decrypt test vectors of the
demonstration harness hold. -/
theorem C4_known_vectors :
    (PublicKey.mk 2534665157 7).encrypt 123 = 2463995467 ∧
    (PrivateKey.mk 2534665157 1810402843).decrypt 2463995467 = 123 ∧
    (PublicKey.mk 2534665157 7).encrypt 456 = 2022084991 ∧
    (PrivateKey.mk 2534665157 1810402843).decrypt 2022084991 = 456 ∧
    (PublicKey.mk 2534665157 7).encrypt 123456 = 1299565302 ∧
    (PrivateKey.mk 2534665157 1810402843).decrypt 1299565302 = 123456 := by
  have ta1 : (2463995467 : Nat) ^ 1 % 2534665157 = 2463995467 := by decide
  have ta2 : (2463995467 : Nat) ^ 3 % 2534665157 = 1734544281 :=
    pow_mod_step1 2463995467 2534665157 1 3 2463995467 1734544281 (by norm_num) ta1 (by decide)
  have ta3 : (2463995467 : Nat) ^ 6 % 2534665157 = 1724614925 :=
    pow_mod_step0 2463995467 2534665157 3 6 1734544281 1724614925 (by norm_num) ta2 (by decide)
  have ta4 : (2463995467 : Nat) ^ 13 % 2534665157 = 1603254116 :=
    pow_mod_step1 2463995467 2534665157 6 13 1724614925 1603254116 (by norm_num) ta3 (by decide)
  have ta5 : (2463995467 : Nat) ^ 26 % 2534665157 = 1141048559 :=
    pow_mod_step0 2463995467 2534665157 13 26 1603254116 1141048559 (by norm_num) ta4 (by decide)
  have ta6 : (2463995467 : Nat) ^ 53 % 2534665157 = 97662987 :=
    pow_mod_step1 2463995467 2534665157 26 53 1141048559 97662987 (by norm_num) ta5 (by decide)
  have ta7 : (2463995467 : Nat) ^ 107 % 2534665157 = 230925670 :=
    pow_mod_step1 2463995467 2534665157 53 107 97662987 230925670 (by norm_num) ta6 (by decide)
  have ta8 : (2463995467 : Nat) ^ 215 % 2534665157 = 1350141865 :=
    pow_mod_step1 2463995467 2534665157 107 215 230925670 1350141865 (by norm_num) ta7 (by decide)
  have ta9 : (2463995467 : Nat) ^ 431 % 2534665157 = 770209787 :=
    pow_mod_step1 2463995467 2534665157 215 431 1350141865 770209787 (by norm_num) ta8 (by decide)
  have ta10 : (2463995467 : Nat) ^ 863 % 2534665157 = 1356901132 :=
    pow_mod_step1 2463995467 2534665157 431 863 770209787 1356901132 (by norm_num) ta9 (by decide)
  have ta11 : (2463995467 : Nat) ^ 1726 % 2534665157 = 691361919 :=
    pow_mod_step0 2463995467 2534665157 863 1726 1356901132 691361919 (by norm_num) ta10 (by decide)
  have ta12 : (2463995467 : Nat) ^ 3453 % 2534665157 = 2494541043 :=
    pow_mod_step1 2463995467 2534665157 1726 3453 691361919 2494541043 (by norm_num) ta11 (by decide)
  have ta13 : (2463995467 : Nat) ^ 6906 % 2534665157 = 1256513306 :=
    pow_mod_step0 2463995467 2534665157 3453 6906 2494541043 1256513306 (by norm_num) ta12 (by decide)
  have ta14 : (2463995467 : Nat) ^ 13812 % 2534665157 = 117482393 :=
    pow_mod_step0 2463995467 2534665157 6906 13812 1256513306 117482393 (by norm_num) ta13 (by decide)
  have ta15 : (2463995467 : Nat) ^ 27624 % 2534665157 = 1633653226 :=
    pow_mod_step0 2463995467 2534665157 13812 27624 117482393 1633653226 (by norm_num) ta14 (by decide)
  have ta16 : (2463995467 : Nat) ^ 55249 % 2534665157 = 2081991196 :=
    pow_mod_step1 2463995467 2534665157 27624 55249 1633653226 2081991196 (by norm_num) ta15 (by decide)
  have ta17 : (2463995467 : Nat) ^ 110498 % 2534665157 = 494329434 :=
    pow_mod_step0 2463995467 2534665157 55249 110498 2081991196 494329434 (by norm_num) ta16 (by decide)
  have ta18 : (2463995467 : Nat) ^ 220996 % 2534665157 = 1478459790 :=
    pow_mod_step0 2463995467 2534665157 110498 220996 494329434 1478459790 (by norm_num) ta17 (by decide)
  have ta19 : (2463995467 : Nat) ^ 441992 % 2534665157 = 1311142733 :=
    pow_mod_step0 2463995467 2534665157 220996 441992 1478459790 1311142733 (by norm_num) ta18 (by decide)
  have ta20 : (2463995467 : Nat) ^ 883985 % 2534665157 = 710790729 :=
    pow_mod_step1 2463995467 2534665157 441992 883985 1311142733 710790729 (by norm_num) ta19 (by decide)
  have ta21 : (2463995467 : Nat) ^ 1767971 % 2534665157 = 1730072657 :=
    pow_mod_step1 2463995467 2534665157 883985 1767971 710790729 1730072657 (by norm_num) ta20 (by decide)
  have ta22 : (2463995467 : Nat) ^ 3535943 % 2534665157 = 1430490009 :=
    pow_mod_step1 2463995467 2534665157 1767971 3535943 1730072657 1430490009 (by norm_num) ta21 (by decide)
  have ta23 : (2463995467 : Nat) ^ 7071886 % 2534665157 = 335651971 :=
    pow_mod_step0 2463995467 2534665157 3535943 7071886 1430490009 335651971 (by norm_num) ta22 (by decide)
  have ta24 : (2463995467 : Nat) ^ 14143772 % 2534665157 = 1444044194 :=
    pow_mod_step0 2463995467 2534665157 7071886 14143772 335651971 1444044194 (by norm_num) ta23 (by decide)
  have ta25 : (2463995467 : Nat) ^ 28287544 % 2534665157 = 793998575 :=
    pow_mod_step0 2463995467 2534665157 14143772 28287544 1444044194 793998575 (by norm_num) ta24 (by decide)
  have ta26 : (2463995467 : Nat) ^ 56575088 % 2534665157 = 109363534 :=
    pow_mod_step0 2463995467 2534665157 28287544 56575088 793998575 109363534 (by norm_num) ta25 (by decide)
  have ta27 : (2463995467 : Nat) ^ 113150177 % 2534665157 = 1366246140 :=
    pow_mod_step1 2463995467 2534665157 56575088 113150177 109363534 1366246140 (by norm_num) ta26 (by decide)
  have ta28 : (2463995467 : Nat) ^ 226300355 % 2534665157 = 2271595951 :=
    pow_mod_step1 2463995467 2534665157 113150177 226300355 1366246140 2271595951 (by norm_num) ta27 (by decide)
  have ta29 : (2463995467 : Nat) ^ 452600710 % 2534665157 = 2139425103 :=
    pow_mod_step0 2463995467 2534665157 226300355 452600710 2271595951 2139425103 (by norm_num) ta28 (by decide)
  have ta30 : (2463995467 : Nat) ^ 905201421 % 2534665157 = 971130815 :=
    pow_mod_step1 2463995467 2534665157 452600710 905201421 2139425103 971130815 (by norm_num) ta29 (by decide)
  have ta31 : (2463995467 : Nat) ^ 1810402843 % 2534665157 = 123 :=
    pow_mod_step1 2463995467 2534665157 905201421 1810402843 971130815 123 (by norm_num) ta30 (by decide)
  have tb1 : (2022084991 : Nat) ^ 1 % 2534665157 = 2022084991 := by decide
  have tb2 : (2022084991 : Nat) ^ 3 % 2534665157 = 1658351034 :=
    pow_mod_step1 2022084991 2534665157 1 3 2022084991 1658351034 (by norm_num) tb1 (by decide)
  have tb3 : (2022084991 : Nat) ^ 6 % 2534665157 = 1577669912 :=
    pow_mod_step0 2022084991 2534665157 3 6 1658351034 1577669912 (by norm_num) tb2 (by decide)
  have tb4 : (2022084991 : Nat) ^ 13 % 2534665157 = 846172659 :=
    pow_mod_step1 2022084991 2534665157 6 13 1577669912 846172659 (by norm_num) tb3 (by decide)
  have tb5 : (2022084991 : Nat) ^ 26 % 2534665157 = 2107272123 :=
    pow_mod_step0 2022084991 2534665157 13 26 846172659 2107272123 (by norm_num) tb4 (by decide)
  have tb6 : (2022084991 : Nat) ^ 53 % 2534665157 = 2394774707 :=
    pow_mod_step1 2022084991 2534665157 26 53 2107272123 2394774707 (by norm_num) tb5 (by decide)
  have tb7 : (2022084991 : Nat) ^ 107 % 2534665157 = 1392829542 :=
    pow_mod_step1 2022084991 2534665157 53 107 2394774707 1392829542 (by norm_num) tb6 (by decide)
  have tb8 : (2022084991 : Nat) ^ 215 % 2534665157 = 401684268 :=
    pow_mod_step1 2022084991 2534665157 107 215 1392829542 401684268 (by norm_num) tb7 (by decide)
  have tb9 : (2022084991 : Nat) ^ 431 % 2534665157 = 2196058382 :=
    pow_mod_step1 2022084991 2534665157 215 431 401684268 2196058382 (by norm_num) tb8 (by decide)
  have tb10 : (2022084991 : Nat) ^ 863 % 2534665157 = 580347864 :=
    pow_mod_step1 2022084991 2534665157 431 863 2196058382 580347864 (by norm_num) tb9 (by decide)
  have tb11 : (2022084991 : Nat) ^ 1726 % 2534665157 = 1120282503 :=
    pow_mod_step0 2022084991 2534665157 863 1726 580347864 1120282503 (by norm_num) tb10 (by decide)
  have tb12 : (2022084991 : Nat) ^ 3453 % 2534665157 = 434890022 :=
    pow_mod_step1 2022084991 2534665157 1726 3453 1120282503 434890022 (by norm_num) tb11 (by decide)
  have tb13 : (2022084991 : Nat) ^ 6906 % 2534665157 = 699422825 :=
    pow_mod_step0 2022084991 2534665157 3453 6906 434890022 699422825 (by norm_num) tb12 (by decide)
  have tb14 : (2022084991 : Nat) ^ 13812 % 2534665157 = 1692452247 :=
    pow_mod_step0 2022084991 2534665157 6906 13812 699422825 1692452247 (by norm_num) tb13 (by decide)
  have tb15 : (2022084991 : Nat) ^ 27624 % 2534665157 = 1402157405 :=
    pow_mod_step0 2022084991 2534665157 13812 27624 1692452247 1402157405 (by norm_num) tb14 (by decide)
  have tb16 : (2022084991 : Nat) ^ 55249 % 2534665157 = 2292394058 :=
    pow_mod_step1 2022084991 2534665157 27624 55249 1402157405 2292394058 (by norm_num) tb15 (by decide)
  have tb17 : (2022084991 : Nat) ^ 110498 % 2534665157 = 1280711132 :=
    pow_mod_step0 2022084991 2534665157 55249 110498 2292394058 1280711132 (by norm_num) tb16 (by decide)
  have tb18 : (2022084991 : Nat) ^ 220996 % 2534665157 = 2214689675 :=
    pow_mod_step0 2022084991 2534665157 110498 220996 1280711132 2214689675 (by norm_num) tb17 (by decide)
  have tb19 : (2022084991 : Nat) ^ 441992 % 2534665157 = 298038513 :=
    pow_mod_step0 2022084991 2534665157 220996 441992 2214689675 298038513 (by norm_num) tb18 (by decide)
  have tb20 : (2022084991 : Nat) ^ 883985 % 2534665157 = 202167680 :=
    pow_mod_step1 2022084991 2534665157 441992 883985 298038513 202167680 (by norm_num) tb19 (by decide)
  have tb21 : (2022084991 : Nat) ^ 1767971 % 2534665157 = 605930521 :=
    pow_mod_step1 2022084991 2534665157 883985 1767971 202167680 605930521 (by norm_num) tb20 (by decide)
  have tb22 : (2022084991 : Nat) ^ 3535943 % 2534665157 = 1880515798 :=
    pow_mod_step1 2022084991 2534665157 1767971 3535943 605930521 1880515798 (by norm_num) tb21 (by decide)
  have tb23 : (2022084991 : Nat) ^ 7071886 % 2534665157 = 1102190343 :=
    pow_mod_step0 2022084991 2534665157 3535943 7071886 1880515798 1102190343 (by norm_num) tb22 (by decide)
  have tb24 : (2022084991 : Nat) ^ 14143772 % 2534665157 = 1970330698 :=
    pow_mod_step0 2022084991 2534665157 7071886 14143772 1102190343 1970330698 (by norm_num) tb23 (by decide)
  have tb25 : (2022084991 : Nat) ^ 28287544 % 2534665157 = 1938759684 :=
    pow_mod_step0 2022084991 2534665157 14143772 28287544 1970330698 1938759684 (by norm_num) tb24 (by decide)
  have tb26 : (2022084991 : Nat) ^ 56575088 % 2534665157 = 1300380474 :=
    pow_mod_step0 2022084991 2534665157 28287544 56575088 1938759684 1300380474 (by norm_num) tb25 (by decide)
  have tb27 : (2022084991 : Nat) ^ 113150177 % 2534665157 = 1768915311 :=
    pow_mod_step1 2022084991 2534665157 56575088 113150177 1300380474 1768915311 (by norm_num) tb26 (by decide)
  have tb28 : (2022084991 : Nat) ^ 226300355 % 2534665157 = 2452887674 :=
    pow_mod_step1 2022084991 2534665157 113150177 226300355 1768915311 2452887674 (by norm_num) tb27 (by decide)
  have tb29 : (2022084991 : Nat) ^ 452600710 % 2534665157 = 2392975680 :=
    pow_mod_step0 2022084991 2534665157 226300355 452600710 2452887674 2392975680 (by norm_num) tb28 (by decide)
  have tb30 : (2022084991 : Nat) ^ 905201421 % 2534665157 = 1929969661 :=
    pow_mod_step1 2022084991 2534665157 452600710 905201421 2392975680 1929969661 (by norm_num) tb29 (by decide)
  have tb31 : (2022084991 : Nat) ^ 1810402843 % 2534665157 = 456 :=
    pow_mod_step1 2022084991 2534665157 905201421 1810402843 1929969661 456 (by norm_num) tb30 (by decide)
  have tc1 : (1299565302 : Nat) ^ 1 % 2534665157 = 1299565302 := by decide
  have tc2 : (1299565302 : Nat) ^ 3 % 2534665157 = 679353737 :=
    pow_mod_step1 1299565302 2534665157 1 3 1299565302 679353737 (by norm_num) tc1 (by decide)
  have tc3 : (1299565302 : Nat) ^ 6 % 2534665157 = 976396371 :=
    pow_mod_step0 1299565302 2534665157 3 6 679353737 976396371 (by norm_num) tc2 (by decide)
  have tc4 : (1299565302 : Nat) ^ 13 % 2534665157 = 1152343959 :=
    pow_mod_step1 1299565302 2534665157 6 13 976396371 1152343959 (by norm_num) tc3 (by decide)
  have tc5 : (1299565302 : Nat) ^ 26 % 2534665157 = 2098870465 :=
    pow_mod_step0 1299565302 2534665157 13 26 1152343959 2098870465 (by norm_num) tc4 (by decide)
  have tc6 : (1299565302 : Nat) ^ 53 % 2534665157 = 1817495229 :=
    pow_mod_step1 1299565302 2534665157 26 53 2098870465 1817495229 (by norm_num) tc5 (by decide)
  have tc7 : (1299565302 : Nat) ^ 107 % 2534665157 = 983256742 :=
    pow_mod_step1 1299565302 2534665157 53 107 1817495229 983256742 (by norm_num) tc6 (by decide)
  have tc8 : (1299565302 : Nat) ^ 215 % 2534665157 = 838439375 :=
    pow_mod_step1 1299565302 2534665157 107 215 983256742 838439375 (by norm_num) tc7 (by decide)
  have tc9 : (1299565302 : Nat) ^ 431 % 2534665157 = 1468279512 :=
    pow_mod_step1 1299565302 2534665157 215 431 838439375 1468279512 (by norm_num) tc8 (by decide)
  have tc10 : (1299565302 : Nat) ^ 863 % 2534665157 = 1250447904 :=
    pow_mod_step1 1299565302 2534665157 431 863 1468279512 1250447904 (by norm_num) tc9 (by decide)
  have tc11 : (1299565302 : Nat) ^ 1726 % 2534665157 = 66440772 :=
    pow_mod_step0 1299565302 2534665157 863 1726 1250447904 66440772 (by norm_num) tc10 (by decide)
  have tc12 : (1299565302 : Nat) ^ 3453 % 2534665157 = 2368703859 :=
    pow_mod_step1 1299565302 2534665157 1726 3453 66440772 2368703859 (by norm_num) tc11 (by decide)
  have tc13 : (1299565302 : Nat) ^ 6906 % 2534665157 = 593431116 :=
    pow_mod_step0 1299565302 2534665157 3453 6906 2368703859 593431116 (by norm_num) tc12 (by decide)
  have tc14 : (1299565302 : Nat) ^ 13812 % 2534665157 = 550585167 :=
    pow_mod_step0 1299565302 2534665157 6906 13812 593431116 550585167 (by norm_num) tc13 (by decide)
  have tc15 : (1299565302 : Nat) ^ 27624 % 2534665157 = 2223402366 :=
    pow_mod_step0 1299565302 2534665157 13812 27624 550585167 2223402366 (by norm_num) tc14 (by decide)
  have tc16 : (1299565302 : Nat) ^ 55249 % 2534665157 = 2236576066 :=
    pow_mod_step1 1299565302 2534665157 27624 55249 2223402366 2236576066 (by norm_num) tc15 (by decide)
  have tc17 : (1299565302 : Nat) ^ 110498 % 2534665157 = 1173202630 :=
    pow_mod_step0 1299565302 2534665157 55249 110498 2236576066 1173202630 (by norm_num) tc16 (by decide)
  have tc18 : (1299565302 : Nat) ^ 220996 % 2534665157 = 2373630521 :=
    pow_mod_step0 1299565302 2534665157 110498 220996 1173202630 2373630521 (by norm_num) tc17 (by decide)
  have tc19 : (1299565302 : Nat) ^ 441992 % 2534665157 = 2374380967 :=
    pow_mod_step0 1299565302 2534665157 220996 441992 2373630521 2374380967 (by norm_num) tc18 (by decide)
  have tc20 : (1299565302 : Nat) ^ 883985 % 2534665157 = 1449229775 :=
    pow_mod_step1 1299565302 2534665157 441992 883985 2374380967 1449229775 (by norm_num) tc19 (by decide)
  have tc21 : (1299565302 : Nat) ^ 1767971 % 2534665157 = 1950679184 :=
    pow_mod_step1 1299565302 2534665157 883985 1767971 1449229775 1950679184 (by norm_num) tc20 (by decide)
  have tc22 : (1299565302 : Nat) ^ 3535943 % 2534665157 = 94084733 :=
    pow_mod_step1 1299565302 2534665157 1767971 3535943 1950679184 94084733 (by norm_num) tc21 (by decide)
  have tc23 : (1299565302 : Nat) ^ 7071886 % 2534665157 = 1657297496 :=
    pow_mod_step0 1299565302 2534665157 3535943 7071886 94084733 1657297496 (by norm_num) tc22 (by decide)
  have tc24 : (1299565302 : Nat) ^ 14143772 % 2534665157 = 1316116107 :=
    pow_mod_step0 1299565302 2534665157 7071886 14143772 1657297496 1316116107 (by norm_num) tc23 (by decide)
  have tc25 : (1299565302 : Nat) ^ 28287544 % 2534665157 = 1952689682 :=
    pow_mod_step0 1299565302 2534665157 14143772 28287544 1316116107 1952689682 (by norm_num) tc24 (by decide)
  have tc26 : (1299565302 : Nat) ^ 56575088 % 2534665157 = 665839757 :=
    pow_mod_step0 1299565302 2534665157 28287544 56575088 1952689682 665839757 (by norm_num) tc25 (by decide)
  have tc27 : (1299565302 : Nat) ^ 113150177 % 2534665157 = 496302515 :=
    pow_mod_step1 1299565302 2534665157 56575088 113150177 665839757 496302515 (by norm_num) tc26 (by decide)
  have tc28 : (1299565302 : Nat) ^ 226300355 % 2534665157 = 543250393 :=
    pow_mod_step1 1299565302 2534665157 113150177 226300355 496302515 543250393 (by norm_num) tc27 (by decide)
  have tc29 : (1299565302 : Nat) ^ 452600710 % 2534665157 = 2051054794 :=
    pow_mod_step0 1299565302 2534665157 226300355 452600710 543250393 2051054794 (by norm_num) tc28 (by decide)
  have tc30 : (1299565302 : Nat) ^ 905201421 % 2534665157 = 1440576960 :=
    pow_mod_step1 1299565302 2534665157 452600710 905201421 2051054794 1440576960 (by norm_num) tc29 (by decide)
  have tc31 : (1299565302 : Nat) ^ 1810402843 % 2534665157 = 123456 :=
    pow_mod_step1 1299565302 2534665157 905201421 1810402843 1440576960 123456 (by norm_num) tc30 (by decide)
  refine ⟨?_, ?_, ?_, ?_, ?_, ?_⟩
  · exact_mod_cast encrypt_mk_nat_eq 2534665157 7 123 2463995467 (by decide)
  · exact_mod_cast decrypt_mk_nat_eq 2534665157 1810402843 2463995467 123 ta31
  · exact_mod_cast encrypt_mk_nat_eq 2534665157 7 456 2022084991 (by decide)
  · exact_mod_cast decrypt_mk_nat_eq 2534665157 1810402843 2022084991 456 tb31
  · exact_mod_cast encrypt_mk_nat_eq 2534665157 7 123456 1299565302 (by decide)
  · exact_mod_cast decrypt_mk_nat_eq 2534665157 1810402843 1299565302 123456 tc31

/-- Claim C5, invalid parameter: make_key_pair(length) fails with the
InvalidParameter condition if and only if length < 4; for length >= 4 that
condition is never raised. -/
theorem C5_invalid_parameter (L : Nat) (ch : Nat → Nat) :
    make_key_pair L ch = .error .invalidParameter ↔ L < 4 := by
  constructor
  · intro h
    by_contra hL
    unfold make_key_pair at h
    rw [if_neg hL] at h
    split at h
    · simp at h
    · split at h
      · simp at h
      · split at h
        · simp at h
        · simp at h
  · intro h
    unfold make_key_pair
    rw [if_pos h]

/-- Claim C5 witness: length 3 fails with InvalidParameter. -/
theorem C5_invalid_parameter_witness :
    make_key_pair 3 (fun _ => 0) = .error .invalidParameter :=
  (C5_invalid_parameter 3 (fun _ => 0)).mpr (by norm_num)

/-- Claim C6, amended prime finder contract: for start >= stop the result is
empty; for start < stop with stop >= 2 the result is exactly the primes p
with start <= p <= stop, in strictly ascending order without duplicates; in
the remaining degenerate case start < stop < 2 the result is the single
element list [2] (so the claim as frozen fails there: 2 exceeds stop). -/
theorem C6_primes_in_range (start stop : Nat) :
    (start ≥ stop → get_primes start stop = []) ∧
    (start < stop → 2 ≤ stop →
      (∀ p, p ∈ get_primes start stop ↔ p.Prime ∧ start ≤ p ∧ p ≤ stop) ∧
      (get_primes start stop).Pairwise (· < ·)) ∧
    (start < stop → stop < 2 → get_primes start stop = [2]) := by
  refine ⟨?_, ?_, ?_⟩
  · intro h
    unfold get_primes
    rw [if_pos h]
  · intro h1 h2
    exact ⟨fun p => mem_get_primes h2 h1, get_primes_sorted start stop⟩
  · intro h1 h2
    have hs : start = 0 := by omega
    have ht : stop = 1 := by omega
    subst hs
    subst ht
    decide

/-- Claim C6 counterexample to the frozen statement: get_primes 0 1 has
start < stop yet contains the prime 2, which is larger than stop = 1, so the
result is not exactly the primes within the interval. -/
theorem C6_counterexample :
    (0 : Nat) < 1 ∧ 2 ∈ get_primes 0 1 ∧ ¬((2 : Nat) ≤ 1) :=
  ⟨by norm_num, by decide, by norm_num⟩

/-- Claim C6 witness: an empty range call and a membership instance of the
characterization at start = 2, stop = 8. -/
theorem C6_primes_in_range_witness :
    get_primes 3 2 = [] ∧
    (5 ∈ get_primes 2 8 ↔ Nat.Prime 5 ∧ 2 ≤ 5 ∧ 5 ≤ 8) :=
  ⟨(C6_primes_in_range 3 2).1 (by norm_num),
    ((C6_primes_in_range 2 8).2.1 (by norm_num) (by norm_num)).1 5⟩

/-- Claim C7, coprimality checker contract: are_relatively_prime(a, b)
returns false exactly when some n with 2 <= n <= min(a, b) divides both a
and b, and for positive arguments the true answer coincides with
gcd(a, b) == 1. -/
theorem C7_coprime (a b : Nat) :
    (are_relatively_prime a b = false ↔
      ∃ n, 2 ≤ n ∧ n ≤ min a b ∧ n ∣ a ∧ n ∣ b) ∧
    (0 < a → 0 < b → (are_relatively_prime a b = true ↔ Nat.gcd a b = 1)) :=
  ⟨are_relatively_prime_false_iff a b,
    fun ha hb => are_relatively_prime_true_iff_gcd a b ha hb⟩

/-- Claim C7 witness: the gcd characterization applied at a = 4, b = 9. -/
theorem C7_coprime_witness :
    (0 : Nat) < 4 ∧ (0 : Nat) < 9 ∧
      (are_relatively_prime 4 9 = true ↔ Nat.gcd 4 9 = 1) :=
  ⟨by norm_num, by norm_num, (C7_coprime 4 9).2 (by norm_num) (by norm_num)⟩

/-- Claim C8, amended coprimality boundary: whenever min(a, b) <= 1 the scan
from 2 to min(a, b) is vacuous, so are_relatively_prime returns true (the
frozen claim said false, which the code contradicts). -/
theorem C8_coprime_boundary (a b : Nat) (h : min a b ≤ 1) :
    are_relatively_prime a b = true :=
  are_relatively_prime_of_min_le_one h

/-- Claim C8 counterexample to the frozen statement: min 0 5 <= 1 yet the
call returns true, not false. -/
theorem C8_counterexample :
    min 0 5 ≤ 1 ∧ are_relatively_prime 0 5 ≠ false :=
  ⟨by norm_num, by decide⟩

/-- Claim C8 witness: the amended boundary statement at a = 1, b = 5. -/
theorem C8_coprime_boundary_witness :
    min 1 5 ≤ 1 ∧ are_relatively_prime 1 5 = true :=
  ⟨by norm_num, C8_coprime_boundary 1 5 (by norm_num)⟩

/-- Claim C9, termination: in this embedding every loop of the source is
modelled by structurally bounded recursion that mirrors the bound of the
loop itself (the candidate ranges, and the shrinking prime pool), so every
call of get_primes, are_relatively_prime and make_key_pair yields a value;
make_key_pair in particular either returns a key pair or one of the two
declared error conditions. -/
theorem C9_termination :
    (∀ start stop : Nat, ∃ l, get_primes start stop = l) ∧
    (∀ a b : Nat, ∃ r, are_relatively_prime a b = r) ∧
    (∀ (L : Nat) (ch : Nat → Nat),
      (∃ kp, make_key_pair L ch = .ok kp) ∨
      (∃ err, make_key_pair L ch = .error err)) := by
  refine ⟨fun s t => ⟨_, rfl⟩, fun a b => ⟨_, rfl⟩, fun L ch => ?_⟩
  cases hE : make_key_pair L ch with
  | ok kp => exact Or.inl ⟨kp, rfl⟩
  | error err => exact Or.inr ⟨err, rfl⟩

/-- Claim C10, distinct primes: every successful make_key_pair run builds the
modulus as a product of two distinct primes, so the modulus is never the
square of a prime. -/
theorem C10_distinct_primes (L : Nat) (ch : Nat → Nat) (pub : PublicKey)
    (priv : PrivateKey) (hL : 4 ≤ L)
    (h : make_key_pair L ch = .ok (pub, priv)) :
    ∃ p q, p.Prime ∧ q.Prime ∧ p ≠ q ∧ pub.n = p * q ∧
      ∀ r, r.Prime → pub.n ≠ r ^ 2 := by
  obtain ⟨-, p, q, e, d, hp, hq, hpq, -, -, -, -, -, hpub, -⟩ :=
    make_key_pair_ok h
  subst hpub
  refine ⟨p, q, hp, hq, hpq, rfl, ?_⟩
  intro r hr heq
  have heq2 : p * q = r ^ 2 := heq
  have hrdvd : r ∣ p * q := by
    rw [heq2]
    exact dvd_pow_self r (by norm_num)
  rcases (Nat.Prime.dvd_mul hr).mp hrdvd with hdp | hdq
  · have hrp : r = p := (Nat.prime_dvd_prime_iff_eq hr hp).mp hdp
    rw [hrp, pow_two] at heq2
    exact hpq (Nat.eq_of_mul_eq_mul_left hp.pos heq2).symm
  · have hrq : r = q := (Nat.prime_dvd_prime_iff_eq hr hq).mp hdq
    rw [hrq, pow_two, Nat.mul_comm p q] at heq2
    exact hpq (Nat.eq_of_mul_eq_mul_left hq.pos heq2)

/-- Claim C10 witness: the concrete run at length 4 with the all zero
oracle produces the modulus 10 = 2 * 5. -/
theorem C10_distinct_primes_witness :
    4 ≤ 4 ∧
    make_key_pair 4 (fun _ => 0) = .ok (⟨10, 3⟩, ⟨10, 3⟩) ∧
    (∃ p q, p.Prime ∧ q.Prime ∧ p ≠ q ∧ (PublicKey.mk 10 3).n = p * q ∧
      ∀ r, r.Prime → (PublicKey.mk 10 3).n ≠ r ^ 2) :=
  ⟨le_refl 4, by rfl,
    C10_distinct_primes 4 (fun _ => 0) ⟨10, 3⟩ ⟨10, 3⟩ (le_refl 4) (by rfl)⟩
